import Mathlib

/-!
Shallow embedding of the `AlarmScheduler` library
(src/libraries/AlarmScheduler/src/AlarmScheduler.{h,cpp}).

Machine integers are modelled as `Nat` (unsigned fields) and `Int`
(`time_t`, `int16_t lastYearDay`, `int webId`).  C function pointers are
modelled as `Option Nat` (an opaque identity for the pointed-to function,
`none` = `nullptr`).  Fixed-size `char` buffers are `String`s together with
the explicit truncation `strFit` that mirrors `strncpy(dst, src, N-1)`.

The C object keeps a 16-slot array `_alarms` plus a live count `_num`;
slots at index `≥ _num` retain whatever bytes a previous occupant left.
We model the live prefix as a `List Alarm`; operations that write a fresh
slot take the slot's previous (residual) contents as an explicit `prev`
argument, and assign exactly the fields the C code assigns, keeping
`prev`'s values for the fields the C code does not touch.
-/

namespace AlarmSched

/-- `#define ALARM_WILDCARD 255` -/
def ALARM_WILDCARD : Nat := 255

/-- `DOW_TODOS / DOW_ALL = 0x7F` -/
def DOW_ALL : Nat := 0x7F

/-- `AlarmScheduler::MAX_ALARMS = 16` -/
def MAX_ALARMS : Nat := 16

/-- The `Alarm` struct of AlarmScheduler.h. -/
structure Alarm where
  enabled : Bool
  dayMask : Nat
  hour : Nat
  minute : Nat
  intervalMin : Nat
  lastYearDay : Int
  lastMinute : Nat
  lastHour : Nat
  lastExecution : Int
  action : Option Nat
  externalAction : Option Nat
  externalAction0 : Option Nat
  parameter : Nat
  name : String
  description : String
  typeString : String
  isCustomizable : Bool
  webId : Int
deriving DecidableEq

/-- The `Alarm()` default constructor (field initialisers plus ctor body). -/
def Alarm.mkDefault : Alarm :=
  { enabled := false, dayMask := DOW_ALL, hour := 0, minute := 0,
    intervalMin := 0, lastYearDay := -1, lastMinute := 255, lastHour := 255,
    lastExecution := 0, action := none, externalAction := none,
    externalAction0 := none, parameter := 0, name := "", description := "",
    typeString := "SYSTEM", isCustomizable := false, webId := -1 }

/-- `strncpy(dst, src, n); dst[n] = 0` — keep the first `n` characters. -/
def strFit (s : String) (n : Nat) : String := ⟨s.data.take n⟩

/-- The broken-down local time consumed by `check()`:
`tm_hour`, `tm_min`, `tm_wday`, `tm_yday` plus `time(nullptr)`. -/
structure TimeReading where
  hour : Nat
  minute : Nat
  wday : Int
  yday : Int
  epoch : Int
deriving DecidableEq

/-- `_dayMaskFromWeekday`: `(weekday >= 0 && weekday <= 6) ? (1 << weekday) : 0`. -/
def dayMaskFromWeekday (weekday : Int) : Nat :=
  if 0 ≤ weekday ∧ weekday ≤ 6 then 1 <<< weekday.toNat else 0

/-- Range validity of a time reading (the values `getLocalTime` can produce). -/
def TimeReading.valid (r : TimeReading) : Bool :=
  r.hour ≤ 23 && r.minute ≤ 59 && (0 ≤ r.wday && r.wday ≤ 6) &&
  (0 ≤ r.yday && r.yday ≤ 365)

/-- The per-alarm trigger decision of `check()` (AlarmScheduler.cpp lines
153–191): enabled test, day-mask test, then the interval branch
(anchor match on first run, elapsed-seconds comparison afterwards) or the
fixed/wildcard branch (hour/minute match plus the dedup-cache test, whose
key includes `lastHour` only when `hour` is the wildcard). -/
def shouldTrigger (alarm : Alarm) (r : TimeReading) : Bool :=
  if !alarm.enabled then false
  else if alarm.dayMask &&& dayMaskFromWeekday r.wday == 0 then false
  else if 0 < alarm.intervalMin then
    if alarm.lastExecution == 0 then
      (alarm.hour == ALARM_WILDCARD || alarm.hour == r.hour) &&
      (alarm.minute == ALARM_WILDCARD || alarm.minute == r.minute)
    else
      decide ((alarm.intervalMin * 60 : Int) ≤ r.epoch - alarm.lastExecution)
  else
    let matchHour := alarm.hour == ALARM_WILDCARD || alarm.hour == r.hour
    let matchMinute := alarm.minute == ALARM_WILDCARD || alarm.minute == r.minute
    if matchHour && matchMinute then
      let alreadyExecuted :=
        if alarm.hour == ALARM_WILDCARD then
          alarm.lastYearDay == r.yday && alarm.lastMinute == r.minute &&
            alarm.lastHour == r.hour
        else
          alarm.lastYearDay == r.yday && alarm.lastMinute == r.minute
      !alreadyExecuted
    else false

/-- An action dispatch performed by `check()`. -/
inductive Invocation where
  | member (fn : Nat) (param : Nat)
  | external (fn : Nat) (param : Nat)
  | external0 (fn : Nat)
deriving DecidableEq

/-- The `if/else if/else if` action dispatch of `check()` (lines 196–205):
member method first, then external-with-parameter, then external-no-parameter;
nothing is invoked when all three slots are null. -/
def invokeOf (alarm : Alarm) : Option Invocation :=
  match alarm.action with
  | some fn => some (.member fn alarm.parameter)
  | none =>
    match alarm.externalAction with
    | some fn => some (.external fn alarm.parameter)
    | none =>
      match alarm.externalAction0 with
      | some fn => some (.external0 fn)
      | none => none

/-- One alarm's slice of a `check()` call: if the trigger decision is
positive, dispatch the action and overwrite the dedup cache with the
reading's fields (lines 207–211); otherwise leave the alarm untouched. -/
def stepAlarm (alarm : Alarm) (r : TimeReading) : Option Invocation × Alarm :=
  if shouldTrigger alarm r then
    (invokeOf alarm,
     { alarm with lastYearDay := r.yday, lastMinute := r.minute,
                  lastHour := r.hour, lastExecution := r.epoch })
  else (none, alarm)

/-- The readings at which a single alarm fires along a sequence of
`check()` calls (each `check()` evolves every alarm independently through
`stepAlarm`). -/
def traceFires : Alarm → List TimeReading → List TimeReading
  | _, [] => []
  | a, r :: rs =>
    if shouldTrigger a r then r :: traceFires (stepAlarm a r).2 rs
    else traceFires a rs

/-- The scheduler state: live alarms (`_alarms[0.._num)`) and `_nextWebId`. -/
structure Scheduler where
  alarms : List Alarm
  nextWebId : Int
deriving DecidableEq

/-- `check()` over the whole store for one valid time reading. -/
def Scheduler.check (s : Scheduler) (r : TimeReading) :
    List Invocation × Scheduler :=
  let results := s.alarms.map (fun a => stepAlarm a r)
  (results.filterMap Prod.fst, { s with alarms := results.map Prod.snd })

/-- `add` (member-method system alarm).  Returns 255 when the store is
full; otherwise writes slot `_num` (residual contents `prev`) and returns
the slot index.  Note `name`/`description` are not assigned by `add`. -/
def Scheduler.add (s : Scheduler) (prev : Alarm)
    (dayMask hour minute intervalMin : Nat) (action : Option Nat)
    (parameter : Nat) (enabled : Bool) : Nat × Scheduler :=
  if MAX_ALARMS ≤ s.alarms.length then (255, s)
  else
    let alarm :=
      { prev with enabled := enabled,
                  dayMask := if dayMask ≠ 0 then dayMask else DOW_ALL,
                  hour := hour, minute := minute, intervalMin := intervalMin,
                  lastYearDay := -1, lastMinute := 255, lastHour := 255,
                  lastExecution := 0, action := action,
                  externalAction := none, externalAction0 := none,
                  parameter := parameter, isCustomizable := false,
                  webId := -1, typeString := "SYSTEM" }
    (s.alarms.length, { s with alarms := s.alarms ++ [alarm] })

/-- `addExternal` (external function with parameter). -/
def Scheduler.addExternal (s : Scheduler) (prev : Alarm)
    (dayMask hour minute intervalMin : Nat) (ext : Option Nat)
    (parameter : Nat) (enabled : Bool) : Nat × Scheduler :=
  if MAX_ALARMS ≤ s.alarms.length then (255, s)
  else
    let alarm :=
      { prev with enabled := enabled,
                  dayMask := if dayMask ≠ 0 then dayMask else DOW_ALL,
                  hour := hour, minute := minute, intervalMin := intervalMin,
                  lastYearDay := -1, lastMinute := 255, lastHour := 255,
                  lastExecution := 0, action := none,
                  externalAction := ext, externalAction0 := none,
                  parameter := parameter, isCustomizable := false,
                  webId := -1, typeString := "SYSTEM" }
    (s.alarms.length, { s with alarms := s.alarms ++ [alarm] })

/-- `addExternal0` (external function without parameter). -/
def Scheduler.addExternal0 (s : Scheduler) (prev : Alarm)
    (dayMask hour minute intervalMin : Nat) (ext0 : Option Nat)
    (enabled : Bool) : Nat × Scheduler :=
  if MAX_ALARMS ≤ s.alarms.length then (255, s)
  else
    let alarm :=
      { prev with enabled := enabled,
                  dayMask := if dayMask ≠ 0 then dayMask else DOW_ALL,
                  hour := hour, minute := minute, intervalMin := intervalMin,
                  lastYearDay := -1, lastMinute := 255, lastHour := 255,
                  lastExecution := 0, action := none,
                  externalAction := none, externalAction0 := ext0,
                  parameter := 0, isCustomizable := false,
                  webId := -1, typeString := "SYSTEM" }
    (s.alarms.length, { s with alarms := s.alarms ++ [alarm] })

/-- `_generateNewWebId`: scan the live alarms for the largest customizable
`webId` (starting from 0) and return it plus one. -/
def Scheduler._generateNewWebId (s : Scheduler) : Int :=
  (s.alarms.foldl
    (fun maxId a =>
      if a.isCustomizable ∧ maxId < a.webId then a.webId else maxId) 0) + 1

/-- `_findIndexByWebId`: index of the first live alarm that is customizable
and carries `webId`; `MAX_ALARMS` when there is none. -/
def Scheduler._findIndexByWebId (s : Scheduler) (webId : Int) : Nat :=
  match s.alarms.findIdx? (fun a => a.isCustomizable && a.webId == webId) with
  | some i => i
  | none => MAX_ALARMS

/-- `addPersonalizable` / `addCustomizable`.  Returns `MAX_ALARMS` when the
store is full; otherwise writes slot `_num` (residual contents `prev`,
whose dedup-cache fields are not assigned here), assigns a fresh `webId`
via `_generateNewWebId`, and returns the slot index.  `mascaraDias` is
stored as given (no zero-mask normalization in this path). -/
def Scheduler.addPersonalizable (s : Scheduler) (prev : Alarm)
    (nombre descripcion : String) (mascaraDias hora minuto : Nat)
    (tipoString : String) (parametro : Nat) (callback : Option Nat)
    (habilitada : Bool) : Nat × Scheduler :=
  if MAX_ALARMS ≤ s.alarms.length then (MAX_ALARMS, s)
  else
    let alarma :=
      { prev with enabled := habilitada, dayMask := mascaraDias,
                  hour := hora, minute := minuto, intervalMin := 0,
                  parameter := parametro, externalAction := callback,
                  action := none, externalAction0 := none,
                  name := strFit nombre 49,
                  description := strFit descripcion 99,
                  typeString := strFit tipoString 19,
                  isCustomizable := true, webId := s._generateNewWebId }
    (s.alarms.length, { s with alarms := s.alarms ++ [alarma] })

/-- The field updates `modificarPersonalizable` performs on the target
alarm on success: new schedule/name/action fields plus the dedup-state
reset to the never-triggered sentinels. -/
def Alarm.applyModify (alarma : Alarm) (nombre descripcion : String)
    (mascaraDias hora minuto : Nat) (tipoString : String)
    (habilitada : Bool) (callback : Option Nat) (parametro : Nat) : Alarm :=
  { alarma with enabled := habilitada, dayMask := mascaraDias,
                hour := hora, minute := minuto,
                externalAction := callback, parameter := parametro,
                action := none, externalAction0 := none,
                name := strFit nombre 49,
                description := strFit descripcion 99,
                typeString := strFit tipoString 19,
                lastYearDay := -1, lastMinute := 255,
                lastHour := 255, lastExecution := 0 }

/-- `modificarPersonalizable` / `modifyCustomizable`. -/
def Scheduler.modificarPersonalizable (s : Scheduler) (idWeb : Int)
    (nombre descripcion : String) (mascaraDias hora minuto : Nat)
    (tipoString : String) (habilitada : Bool) (callback : Option Nat)
    (parametro : Nat) : Bool × Scheduler :=
  let idx := s._findIndexByWebId idWeb
  if MAX_ALARMS ≤ idx then (false, s)
  else
    match s.alarms.get? idx with
    | none => (false, s)
    | some alarma =>
      if !alarma.isCustomizable then (false, s)
      else if callback = none then (false, s)
      else
        let a' := alarma.applyModify nombre descripcion mascaraDias hora
          minuto tipoString habilitada callback parametro
        (true, { s with alarms := s.alarms.set idx a' })

/-- `eliminarPersonalizable` / `deleteCustomizable`: compacting removal. -/
def Scheduler.eliminarPersonalizable (s : Scheduler) (idWeb : Int) :
    Bool × Scheduler :=
  let idx := s._findIndexByWebId idWeb
  if MAX_ALARMS ≤ idx then (false, s)
  else
    match s.alarms.get? idx with
    | none => (false, s)
    | some alarma =>
      if !alarma.isCustomizable then (false, s)
      else (true, { s with alarms := s.alarms.eraseIdx idx })

/-- `habilitarPersonalizable` / `enableCustomizable`: set the enabled flag;
on enabling also reset the dedup cache. -/
def Scheduler.habilitarPersonalizable (s : Scheduler) (idWeb : Int)
    (estado : Bool) : Bool × Scheduler :=
  let idx := s._findIndexByWebId idWeb
  if MAX_ALARMS ≤ idx then (false, s)
  else
    match s.alarms.get? idx with
    | none => (false, s)
    | some alarma =>
      if !alarma.isCustomizable then (false, s)
      else
        let a' :=
          if estado then
            { alarma with enabled := estado, lastYearDay := -1,
                          lastMinute := 255, lastHour := 255,
                          lastExecution := 0 }
          else { alarma with enabled := estado }
        (true, { s with alarms := s.alarms.set idx a' })

/-- One entry of the persisted `/customizable_alarms.json` document, with
the loader's `operator|` defaults already applied to absent fields. -/
structure PersistedAlarm where
  id : Int
  name : String
  description : String
  day : Int
  hour : Nat
  minute : Nat
  action : String
  parameter : Nat
  enabled : Bool
deriving DecidableEq

/-- The serializer's day encoding: `DOW_ALL ↦ 0`, otherwise the first set
bit `d` (scanning `d = 0..6`) gives `d + 1`, and a mask with no bit in
`0..6` leaves the initial value 0. -/
def dayOfMask (mask : Nat) : Int :=
  if mask = DOW_ALL then 0
  else
    match (List.range 7).find? (fun d => mask &&& (1 <<< d) != 0) with
    | some d => (d : Int) + 1
    | none => 0

/-- One serialized alarm object (the fields `guardarPersonalizablesEnJSON`
writes for a customizable alarm). -/
def serializeAlarm (a : Alarm) : PersistedAlarm :=
  { id := a.webId, name := a.name, description := a.description,
    day := dayOfMask a.dayMask, hour := a.hour, minute := a.minute,
    action := a.typeString, parameter := a.parameter, enabled := a.enabled }

/-- `guardarPersonalizablesEnJSON` / `saveCustomizablesToJSON`: the
`alarms` array of the written document — only customizable alarms, in
store order. -/
def Scheduler.guardarPersonalizablesEnJSON (s : Scheduler) :
    List PersistedAlarm :=
  (s.alarms.filter (fun a => a.isCustomizable)).map serializeAlarm

/-- The loader's validation: skip entries with empty name, `hour > 23`,
`minute > 59` or `webId <= 0`. -/
def entryValid (e : PersistedAlarm) : Bool :=
  !(e.name.length == 0 || 23 < e.hour || 59 < e.minute || e.id ≤ 0)

/-- The loader's day decoding: `0 ↦ DOW_ALL`, otherwise
`(uint8_t)(1 << (day - 1))`. -/
def maskOfDay (day : Int) : Nat :=
  if day = 0 then DOW_ALL else (1 <<< (day - 1).toNat) % 256

/-- The fields `cargarPersonalizablesDesdeJSON` assigns when it loads one
document entry into slot `_num` (residual contents `prev`): note that
`externalAction` is nulled but `action`, `externalAction0` and the four
dedup-cache fields are left as the slot had them. -/
def loadEntry (prev : Alarm) (e : PersistedAlarm) : Alarm :=
  { prev with enabled := e.enabled, dayMask := maskOfDay e.day,
              hour := e.hour, minute := e.minute, intervalMin := 0,
              parameter := e.parameter, name := strFit e.name 49,
              description := strFit e.description 99,
              typeString := strFit e.action 19, isCustomizable := true,
              webId := e.id, externalAction := none }

/-- The loader's append loop: stop when the store is full, skip invalid
entries, append valid ones and advance `_nextWebId` past their ids.
`prev` gives the residual contents of each array slot. -/
def cargarLoop : Scheduler → (Nat → Alarm) → List PersistedAlarm → Scheduler
  | s, _, [] => s
  | s, prev, e :: rest =>
    if MAX_ALARMS ≤ s.alarms.length then s
    else if !entryValid e then cargarLoop s prev rest
    else
      cargarLoop
        { alarms := s.alarms ++ [loadEntry (prev s.alarms.length) e],
          nextWebId := if s.nextWebId ≤ e.id then e.id + 1 else s.nextWebId }
        prev rest

/-- `cargarPersonalizablesDesdeJSON` / `loadCustomizablesFromJSON` on a
successfully parsed document: drop every live customizable alarm
(shifting preserves the relative order of the rest), then run the append
loop over the document's `alarms` array. -/
def Scheduler.cargarPersonalizablesDesdeJSON (s : Scheduler)
    (doc : List PersistedAlarm) (prev : Nat → Alarm) : Scheduler :=
  cargarLoop { s with alarms := s.alarms.filter (fun a => !a.isCustomizable) }
    prev doc

/-- Number of populated action-variant slots of an alarm. -/
def Alarm.actionSlotCount (a : Alarm) : Nat :=
  (if a.action.isSome then 1 else 0) +
  (if a.externalAction.isSome then 1 else 0) +
  (if a.externalAction0.isSome then 1 else 0)

/-- The spec-side webId formula: one plus the maximum of the live
customizable webIds (0 when there are none). -/
def maxCustomizableWebId (s : Scheduler) : Int :=
  ((s.alarms.filter (fun a => a.isCustomizable)).map (fun a => a.webId)).foldl
    max 0

/-- The tuple of alarm fields carried by the persisted document:
name, description, day mask, hour, minute, type tag, parameter, enabled. -/
def Alarm.persistTuple (a : Alarm) :
    String × String × Nat × Nat × Nat × String × Nat × Bool :=
  (a.name, a.description, a.dayMask, a.hour, a.minute, a.typeString,
   a.parameter, a.enabled)

/-- Day masks whose document day encoding decodes back to the same mask:
the all-days mask or a single weekday bit. -/
def maskRoundTrips (mask : Nat) : Bool :=
  mask == DOW_ALL || (List.range 7).any (fun d => mask == 1 <<< d)

/-- Conditions under which one customizable alarm survives the
serialize-then-load round trip unchanged: fields within the loader's
validation ranges, strings within their C buffer sizes, and a day mask
the day encoding can represent. -/
@[reducible]
def Alarm.persistRoundTripSafe (a : Alarm) : Prop :=
  a.isCustomizable = true ∧ a.name ≠ "" ∧ a.name.length ≤ 49 ∧
  a.description.length ≤ 99 ∧ a.typeString.length ≤ 19 ∧
  a.hour ≤ 23 ∧ a.minute ≤ 59 ∧ 1 ≤ a.webId ∧
  maskRoundTrips a.dayMask = true

/-- Counterexample scenario for the round-trip claim: a live customizable
alarm whose hour is the wildcard sentinel 255 — legal in the store, but
rejected by the loader's `hour > 23` validation. -/
def c3CexScheduler : Scheduler :=
  Scheduler.mk
    [{ Alarm.mkDefault with
       enabled := true, hour := ALARM_WILDCARD, minute := 0,
       isCustomizable := true, webId := 1, name := "Wildcard bell" }] 2

/-- Counterexample scenario for the fixed-hour dedup claim: a fixed-hour
alarm (08:xx) and three valid readings — 08:00 and 08:01 of year day 0,
then 08:00 of the same year day one (non-leap) year later. -/
def c4CexAlarm : Alarm :=
  { Alarm.mkDefault with
    enabled := true, hour := 8, minute := ALARM_WILDCARD }

def c4CexReadings : List TimeReading :=
  [⟨8, 0, 4, 0, 28800⟩, ⟨8, 1, 4, 0, 28860⟩, ⟨8, 0, 5, 0, 31564800⟩]

/-- Counterexample scenario for the wildcard-hour dedup claim: a
wildcard-hour `minute = 0` alarm and three valid readings — 00:00 and
01:00 of year day 0, then 00:00 of the same year day one year later. -/
def c5CexAlarm : Alarm :=
  { Alarm.mkDefault with
    enabled := true, hour := ALARM_WILDCARD, minute := 0 }

def c5CexReadings : List TimeReading :=
  [⟨0, 0, 4, 0, 0⟩, ⟨1, 0, 4, 0, 3600⟩, ⟨0, 0, 5, 0, 31536000⟩]

/-! ## Helper lemmas -/

theorem ite_lt_max_int (acc w : Int) : (if acc < w then w else acc) = max acc w := by
  rcases le_or_lt w acc with h | h
  · rw [if_neg (not_lt.mpr h), max_eq_left h]
  · rw [if_pos h, max_eq_right h.le]

theorem foldl_webId_max (l : List Alarm) : ∀ acc : Int,
    l.foldl (fun maxId a =>
        if a.isCustomizable ∧ maxId < a.webId then a.webId else maxId) acc
      = ((l.filter (fun a => a.isCustomizable)).map (fun a => a.webId)).foldl
          max acc := by
  induction l with
  | nil => intro acc; rfl
  | cons a l ih =>
    intro acc
    by_cases hc : a.isCustomizable = true
    · simp only [List.foldl_cons, List.filter_cons, hc, if_pos, List.map_cons,
        true_and]
      rw [ite_lt_max_int, ih]
    · simp only [List.foldl_cons, List.filter_cons, hc, Bool.false_eq_true,
        if_false, false_and, ite_false]
      exact ih acc

theorem generateNewWebId_eq (s : Scheduler) :
    s._generateNewWebId = maxCustomizableWebId s + 1 := by
  unfold Scheduler._generateNewWebId maxCustomizableWebId
  rw [foldl_webId_max]

/-! ## C1 -/

/-- C1 counterexample: on a registry with no customizable alarms,
`addPersonalizable` assigns the new alarm `webId = 1`
(`= maxCustomizableWebId + 1`) but returns 0 — the array index, not the
webId, contradicting the claim that the returned value is the assigned
webId (which would be 1 here). -/
theorem addPersonalizable_first_return_is_index_zero :
    ((Scheduler.mk [] 1).addPersonalizable Alarm.mkDefault "Morning Bell"
        "desc" DOW_ALL 8 0 "BELL" 10 (some 1) true).1 = 0 ∧
    maxCustomizableWebId (Scheduler.mk [] 1) + 1 = 1 ∧
    (((Scheduler.mk [] 1).addPersonalizable Alarm.mkDefault "Morning Bell"
        "desc" DOW_ALL 8 0 "BELL" 10 (some 1) true).2.alarms.map
      Alarm.webId) = [1] ∧
    ((Scheduler.mk [] 1).addPersonalizable Alarm.mkDefault "Morning Bell"
        "desc" DOW_ALL 8 0 "BELL" 10 (some 1) true).1 ≠ 1 := by
  decide

/-- C1 (amended): a successful `addPersonalizable`/`addCustomizable`
(store not full) returns the array index of the new alarm (the pre-call
count), while the `webId` it assigns to the new alarm is
`1 + max(existing customizable webIds, default 0)`; on a registry with no
customizable alarms the assigned webId is 1 but the returned value is the
index. -/
theorem addPersonalizable_returns_index_assigns_webId
    (s : Scheduler) (prev : Alarm) (nombre descripcion : String)
    (mascaraDias hora minuto : Nat) (tipoString : String) (parametro : Nat)
    (callback : Option Nat) (habilitada : Bool)
    (h : s.alarms.length < MAX_ALARMS) :
    (s.addPersonalizable prev nombre descripcion mascaraDias hora minuto
        tipoString parametro callback habilitada).1 = s.alarms.length ∧
    ∃ a : Alarm,
      (s.addPersonalizable prev nombre descripcion mascaraDias hora minuto
          tipoString parametro callback habilitada).2.alarms
        = s.alarms ++ [a] ∧
      a.webId = maxCustomizableWebId s + 1 := by
  unfold Scheduler.addPersonalizable
  rw [if_neg (not_le.mpr h)]
  exact ⟨rfl, _, rfl, generateNewWebId_eq s⟩

/-- Witness for C1's theorem at a concrete input. -/
theorem addPersonalizable_returns_index_assigns_webId_inst :
    (Scheduler.mk [] 1).alarms.length < MAX_ALARMS ∧
    ((Scheduler.mk [] 1).addPersonalizable Alarm.mkDefault "A" "" 127 8 0
        "T" 0 (some 1) true).1 = (Scheduler.mk [] 1).alarms.length :=
  ⟨by decide,
   (addPersonalizable_returns_index_assigns_webId (Scheduler.mk [] 1)
     Alarm.mkDefault "A" "" 127 8 0 "T" 0 (some 1) true (by decide)).1⟩

/-! ## C2 -/

/-- C2 counterexample: `addPersonalizable`/`addCustomizable` with
`dayMask = 0` stores the alarm with `dayMask = 0`, not the all-days mask
`0x7F` the claim requires. -/
theorem addPersonalizable_keeps_zero_dayMask :
    (((Scheduler.mk [] 1).addPersonalizable Alarm.mkDefault "A" "d" 0 8 0
        "T" 0 (some 1) true).2.alarms.map Alarm.dayMask) = [0] ∧
    (0 : Nat) ≠ DOW_ALL := by
  decide

/-- C2 (amended): the system-alarm creation paths `add`, `addExternal` and
`addExternal0` normalize a zero day mask to the all-days mask `0x7F`, but
`addPersonalizable`/`addCustomizable` stores the caller's mask unchanged —
a zero mask stays zero there. -/
theorem creation_zero_dayMask_handling
    (s : Scheduler) (prev : Alarm) (hour minute intervalMin : Nat)
    (action ext ext0 callback : Option Nat) (parameter : Nat)
    (enabled : Bool) (nombre descripcion tipoString : String)
    (mascaraDias : Nat) (h : s.alarms.length < MAX_ALARMS) :
    (∃ a, (s.add prev 0 hour minute intervalMin action parameter
        enabled).2.alarms = s.alarms ++ [a] ∧ a.dayMask = DOW_ALL) ∧
    (∃ a, (s.addExternal prev 0 hour minute intervalMin ext parameter
        enabled).2.alarms = s.alarms ++ [a] ∧ a.dayMask = DOW_ALL) ∧
    (∃ a, (s.addExternal0 prev 0 hour minute intervalMin ext0
        enabled).2.alarms = s.alarms ++ [a] ∧ a.dayMask = DOW_ALL) ∧
    (∃ a, (s.addPersonalizable prev nombre descripcion mascaraDias hour
        minute tipoString parameter callback enabled).2.alarms
          = s.alarms ++ [a] ∧ a.dayMask = mascaraDias) := by
  have hn : ¬ (MAX_ALARMS ≤ s.alarms.length) := not_le.mpr h
  unfold Scheduler.add Scheduler.addExternal Scheduler.addExternal0
    Scheduler.addPersonalizable
  simp only [if_neg hn]
  exact ⟨⟨_, rfl, rfl⟩, ⟨_, rfl, rfl⟩, ⟨_, rfl, rfl⟩, ⟨_, rfl, rfl⟩⟩

/-- Witness for C2's theorem at a concrete input. -/
theorem creation_zero_dayMask_handling_inst :
    (Scheduler.mk [] 1).alarms.length < MAX_ALARMS ∧
    (∃ a, ((Scheduler.mk [] 1).addPersonalizable Alarm.mkDefault "A" "d" 0
        8 0 "T" 0 (some 1) true).2.alarms
          = (Scheduler.mk [] 1).alarms ++ [a] ∧ a.dayMask = 0) :=
  ⟨by decide,
   (creation_zero_dayMask_handling (Scheduler.mk [] 1) Alarm.mkDefault 8 0
     0 none none none (some 1) 0 true "A" "d" "T" 0 (by decide)).2.2.2⟩

/-! ## C6 -/

/-- C6: for an enabled interval alarm (`intervalMin > 0`) on an eligible
weekday, a `check()` fires it iff: never triggered
(`lastExecution == 0`) and the hour/minute anchor matches (with wildcard
sentinels matching anything), or already triggered and at least
`intervalMin * 60` seconds of epoch time have elapsed — independent of
the reading's hour/minute fields. -/
theorem interval_alarm_trigger_iff (a : Alarm) (r : TimeReading)
    (hEn : a.enabled = true)
    (hDay : a.dayMask &&& dayMaskFromWeekday r.wday ≠ 0)
    (hInt : 0 < a.intervalMin) :
    (a.lastExecution = 0 →
      (shouldTrigger a r = true ↔
        ((a.hour = ALARM_WILDCARD ∨ a.hour = r.hour) ∧
         (a.minute = ALARM_WILDCARD ∨ a.minute = r.minute)))) ∧
    (a.lastExecution ≠ 0 →
      (shouldTrigger a r = true ↔
        (a.intervalMin * 60 : Int) ≤ r.epoch - a.lastExecution)) := by
  unfold shouldTrigger
  constructor
  · intro h0
    simp [hEn, hDay, hInt, h0]
  · intro h0
    simp [hEn, hDay, hInt, h0]

/-- Witness for C6's theorem at a concrete input. -/
theorem interval_alarm_trigger_iff_inst :
    let a : Alarm := { Alarm.mkDefault with
      enabled := true, intervalMin := 15, hour := ALARM_WILDCARD,
      minute := 0 }
    let r : TimeReading := ⟨0, 0, 4, 0, 0⟩
    a.enabled = true ∧ a.dayMask &&& dayMaskFromWeekday r.wday ≠ 0 ∧
    0 < a.intervalMin ∧ a.lastExecution = 0 ∧
    (shouldTrigger a r = true ↔
      ((a.hour = ALARM_WILDCARD ∨ a.hour = r.hour) ∧
       (a.minute = ALARM_WILDCARD ∨ a.minute = r.minute))) :=
  ⟨by decide, by decide, by decide, by decide,
   (interval_alarm_trigger_iff _ _ (by decide) (by decide) (by decide)).1
     (by decide)⟩

/-! ## C7 -/

/-- C7: at a full store (count = capacity 16), each of `add`,
`addExternal`, `addExternal0` and `addPersonalizable` returns its failure
sentinel (255 for the first three, 16 for the customizable path) and
leaves the scheduler completely unchanged, while every successful add on
a non-full store returns a value distinct from that sentinel. -/
theorem full_store_add_rejected (s : Scheduler) (prev : Alarm)
    (dm hr mi im pa : Nat) (act ext ext0 cb : Option Nat) (en : Bool)
    (nm ds ts : String) (hFull : s.alarms.length = MAX_ALARMS) :
    s.add prev dm hr mi im act pa en = (255, s) ∧
    s.addExternal prev dm hr mi im ext pa en = (255, s) ∧
    s.addExternal0 prev dm hr mi im ext0 en = (255, s) ∧
    s.addPersonalizable prev nm ds dm hr mi ts pa cb en = (MAX_ALARMS, s) ∧
    (∀ s' : Scheduler, s'.alarms.length < MAX_ALARMS →
      (s'.add prev dm hr mi im act pa en).1 ≠ 255 ∧
      (s'.addExternal prev dm hr mi im ext pa en).1 ≠ 255 ∧
      (s'.addExternal0 prev dm hr mi im ext0 en).1 ≠ 255 ∧
      (s'.addPersonalizable prev nm ds dm hr mi ts pa cb en).1
        ≠ MAX_ALARMS) := by
  have hle : MAX_ALARMS ≤ s.alarms.length := le_of_eq hFull.symm
  refine ⟨?_, ?_, ?_, ?_, ?_⟩
  · unfold Scheduler.add; rw [if_pos hle]
  · unfold Scheduler.addExternal; rw [if_pos hle]
  · unfold Scheduler.addExternal0; rw [if_pos hle]
  · unfold Scheduler.addPersonalizable; rw [if_pos hle]
  · intro s' hlt
    have hn : ¬ (MAX_ALARMS ≤ s'.alarms.length) := not_le.mpr hlt
    unfold Scheduler.add Scheduler.addExternal Scheduler.addExternal0
      Scheduler.addPersonalizable
    simp only [if_neg hn]
    have h16 : s'.alarms.length < 16 := by simpa [MAX_ALARMS] using hlt
    refine ⟨by omega, by omega, by omega, ?_⟩
    simp only [MAX_ALARMS]
    omega

/-- Witness for C7's theorem at a concrete input. -/
theorem full_store_add_rejected_inst :
    (Scheduler.mk (List.replicate 16 Alarm.mkDefault) 1).alarms.length
      = MAX_ALARMS ∧
    (Scheduler.mk (List.replicate 16 Alarm.mkDefault) 1).add
        Alarm.mkDefault 127 8 0 0 none 0 true
      = (255, Scheduler.mk (List.replicate 16 Alarm.mkDefault) 1) :=
  ⟨by decide,
   (full_store_add_rejected (Scheduler.mk (List.replicate 16 Alarm.mkDefault) 1)
     Alarm.mkDefault 127 8 0 0 0 none none none none true "A" "d" "T"
     (by decide)).1⟩

/-! ## C10 -/

/-- C10: an enabled alarm whose three action-variant slots are all null —
the state `cargarPersonalizablesDesdeJSON` leaves a customizable alarm in
when it loads it into a fresh slot — invokes no action when a `check()`
reading makes it due, yet its dedup state is still overwritten with the
reading's values, silently consuming the trigger window. -/
theorem null_action_due_alarm_silent (a : Alarm) (r : TimeReading)
    (e : PersistedAlarm) (h1 : a.action = none)
    (h2 : a.externalAction = none) (h3 : a.externalAction0 = none)
    (hT : shouldTrigger a r = true) :
    stepAlarm a r =
      (none, { a with lastYearDay := r.yday, lastMinute := r.minute,
                      lastHour := r.hour, lastExecution := r.epoch }) ∧
    (loadEntry Alarm.mkDefault e).action = none ∧
    (loadEntry Alarm.mkDefault e).externalAction = none ∧
    (loadEntry Alarm.mkDefault e).externalAction0 = none := by
  refine ⟨?_, rfl, rfl, rfl⟩
  unfold stepAlarm invokeOf
  rw [if_pos hT, h1, h2, h3]

/-- Witness for C10's theorem at a concrete input. -/
theorem null_action_due_alarm_silent_inst :
    let a : Alarm := { Alarm.mkDefault with
      enabled := true, hour := 8, minute := 0, isCustomizable := true,
      webId := 1 }
    let r : TimeReading := ⟨8, 0, 4, 10, 100⟩
    a.action = none ∧ a.externalAction = none ∧
    a.externalAction0 = none ∧ shouldTrigger a r = true ∧
    stepAlarm a r =
      (none, { a with lastYearDay := r.yday, lastMinute := r.minute,
                      lastHour := r.hour, lastExecution := r.epoch }) :=
  ⟨by decide, by decide, by decide, by decide,
   (null_action_due_alarm_silent _ _ ⟨1, "N", "", 0, 8, 0, "T", 0, true⟩
     (by decide) (by decide) (by decide) (by decide)).1⟩

/-! ## C8 -/

/-- C8: `modificarPersonalizable`/`modifyCustomizable` returns `false` and
leaves the scheduler unchanged when no live customizable alarm carries the
requested webId (unknown id or system alarm) or when the callback is null;
when it returns `true`, the target alarm's fields are updated and its
dedup state (`lastYearDay`, `lastMinute`, `lastHour`, `lastExecution`) is
reset to the never-triggered sentinels. -/
theorem modificarPersonalizable_spec (s : Scheduler) (idWeb : Int)
    (nombre descripcion : String) (mascaraDias hora minuto : Nat)
    (tipoString : String) (habilitada : Bool) (callback : Option Nat)
    (parametro : Nat) :
    ((∀ a ∈ s.alarms, ¬(a.isCustomizable = true ∧ a.webId = idWeb)) →
      s.modificarPersonalizable idWeb nombre descripcion mascaraDias hora
        minuto tipoString habilitada callback parametro = (false, s)) ∧
    (callback = none →
      s.modificarPersonalizable idWeb nombre descripcion mascaraDias hora
        minuto tipoString habilitada callback parametro = (false, s)) ∧
    ((s.modificarPersonalizable idWeb nombre descripcion mascaraDias hora
        minuto tipoString habilitada callback parametro).1 = true →
      ∃ i a, s.alarms.get? i = some a ∧ a.isCustomizable = true ∧
        a.webId = idWeb ∧ callback ≠ none ∧
        (s.modificarPersonalizable idWeb nombre descripcion mascaraDias
            hora minuto tipoString habilitada callback parametro).2
          = { s with
              alarms := s.alarms.set i (a.applyModify nombre descripcion
                mascaraDias hora minuto tipoString habilitada callback
                parametro) }) := by
  refine ⟨?_, ?_, ?_⟩
  · intro h
    have hf : s.alarms.findIdx?
        (fun a => a.isCustomizable && a.webId == idWeb) = none := by
      rw [List.findIdx?_eq_none_iff]
      intro x hx
      have hx' := h x hx
      by_cases hc : x.isCustomizable = true
      · simp only [hc, Bool.true_and, beq_eq_false_iff_ne, ne_eq]
        exact fun hw => hx' ⟨hc, hw⟩
      · simp only [Bool.not_eq_true] at hc
        simp [hc]
    simp only [Scheduler.modificarPersonalizable,
      Scheduler._findIndexByWebId, hf]
    rw [if_pos le_rfl]
  · intro hcb
    subst hcb
    rcases hfind : s.alarms.findIdx?
        (fun a => a.isCustomizable && a.webId == idWeb) with _ | i
    · simp only [Scheduler.modificarPersonalizable,
        Scheduler._findIndexByWebId, hfind]
      rw [if_pos le_rfl]
    · simp only [Scheduler.modificarPersonalizable,
        Scheduler._findIndexByWebId, hfind]
      by_cases hle : MAX_ALARMS ≤ i
      · rw [if_pos hle]
      · rw [if_neg hle]
        rcases List.findIdx?_eq_some_iff_getElem.mp hfind with ⟨hi, hp, -⟩
        have hget : s.alarms.get? i = some (s.alarms[i]) := by
          rw [List.get?_eq_getElem?, List.getElem?_eq_getElem hi]
        rw [Bool.and_eq_true] at hp
        rw [hget]
        simp [hp.1]
  · intro ht
    rcases hfind : s.alarms.findIdx?
        (fun a => a.isCustomizable && a.webId == idWeb) with _ | i
    · simp only [Scheduler.modificarPersonalizable,
        Scheduler._findIndexByWebId, hfind] at ht
      rw [if_pos le_rfl] at ht
      simp at ht
    · simp only [Scheduler.modificarPersonalizable,
        Scheduler._findIndexByWebId, hfind] at ht ⊢
      by_cases hle : MAX_ALARMS ≤ i
      · rw [if_pos hle] at ht
        simp at ht
      · rw [if_neg hle] at ht ⊢
        rcases List.findIdx?_eq_some_iff_getElem.mp hfind with ⟨hi, hp, -⟩
        have hget : s.alarms.get? i = some (s.alarms[i]) := by
          rw [List.get?_eq_getElem?, List.getElem?_eq_getElem hi]
        rw [Bool.and_eq_true, beq_iff_eq] at hp
        simp only [hget, hp.1, Bool.not_true, Bool.false_eq_true,
          if_false] at ht ⊢
        rcases hcb : callback with _ | fn
        · rw [hcb] at ht
          simp at ht
        · rw [hcb] at ht
          rw [if_neg (Option.some_ne_none fn)] at ht ⊢
          exact ⟨i, s.alarms[i], hget, hp.1, hp.2, by simp, rfl⟩

/-- Witness for C8's theorem at a concrete input. -/
theorem modificarPersonalizable_spec_inst :
    (Scheduler.mk [{ Alarm.mkDefault with
        isCustomizable := true, webId := 3 }] 4).modificarPersonalizable
      3 "Y" "d" 2 9 30 "T" true none 5
    = (false, Scheduler.mk [{ Alarm.mkDefault with
        isCustomizable := true, webId := 3 }] 4) :=
  (modificarPersonalizable_spec
    (Scheduler.mk [{ Alarm.mkDefault with
      isCustomizable := true, webId := 3 }] 4)
    3 "Y" "d" 2 9 30 "T" true none 5).2.1 rfl

/-! ## Trace helpers for the temporal claims -/

theorem stepAlarm_cache_of_trigger (a : Alarm) (r : TimeReading)
    (hT : shouldTrigger a r = true) :
    (stepAlarm a r).2
      = { a with lastYearDay := r.yday, lastMinute := r.minute,
                 lastHour := r.hour, lastExecution := r.epoch } := by
  unfold stepAlarm
  rw [if_pos hT]

theorem shouldTrigger_fixed_not_cached (a : Alarm) (r : TimeReading)
    (hInt : a.intervalMin = 0) (hHour : a.hour ≠ ALARM_WILDCARD)
    (h : shouldTrigger a r = true) :
    ¬(a.lastYearDay = r.yday ∧ a.lastMinute = r.minute) := by
  intro hdup
  unfold shouldTrigger at h
  simp [hInt, beq_eq_false_iff_ne.mpr hHour, hdup.1, hdup.2] at h

theorem shouldTrigger_wildcard_not_cached (a : Alarm) (r : TimeReading)
    (hInt : a.intervalMin = 0) (hHour : a.hour = ALARM_WILDCARD)
    (h : shouldTrigger a r = true) :
    ¬(a.lastYearDay = r.yday ∧ a.lastMinute = r.minute ∧
      a.lastHour = r.hour) := by
  intro hdup
  unfold shouldTrigger at h
  simp [hInt, hHour, hdup.1, hdup.2.1, hdup.2.2] at h

theorem shouldTrigger_minute_eq (a : Alarm) (r : TimeReading)
    (hInt : a.intervalMin = 0) (hMin : a.minute ≠ ALARM_WILDCARD)
    (h : shouldTrigger a r = true) : r.minute = a.minute := by
  by_contra hne
  unfold shouldTrigger at h
  simp [hInt, beq_eq_false_iff_ne.mpr hMin,
    beq_eq_false_iff_ne.mpr (fun hh => hne hh.symm)] at h

theorem traceFires_head_fixed (a : Alarm) (rs : List TimeReading)
    (hInt : a.intervalMin = 0) (hHour : a.hour ≠ ALARM_WILDCARD) :
    ∀ r' ∈ (traceFires a rs).head?,
      ¬(a.lastYearDay = r'.yday ∧ a.lastMinute = r'.minute) := by
  induction rs with
  | nil => simp [traceFires]
  | cons r rs ih =>
    simp only [traceFires]
    by_cases hT : shouldTrigger a r = true
    · rw [if_pos hT]
      intro r' hr'
      simp only [List.head?_cons, Option.mem_def, Option.some.injEq] at hr'
      subst hr'
      exact shouldTrigger_fixed_not_cached a r hInt hHour hT
    · rw [Bool.not_eq_true] at hT
      rw [hT]
      simp only [Bool.false_eq_true, if_false]
      exact ih

theorem traceFires_head_wildcard (a : Alarm) (rs : List TimeReading)
    (hInt : a.intervalMin = 0) (hHour : a.hour = ALARM_WILDCARD) :
    ∀ r' ∈ (traceFires a rs).head?,
      ¬(a.lastYearDay = r'.yday ∧ a.lastMinute = r'.minute ∧
        a.lastHour = r'.hour) := by
  induction rs with
  | nil => simp [traceFires]
  | cons r rs ih =>
    simp only [traceFires]
    by_cases hT : shouldTrigger a r = true
    · rw [if_pos hT]
      intro r' hr'
      simp only [List.head?_cons, Option.mem_def, Option.some.injEq] at hr'
      subst hr'
      exact shouldTrigger_wildcard_not_cached a r hInt hHour hT
    · rw [Bool.not_eq_true] at hT
      rw [hT]
      simp only [Bool.false_eq_true, if_false]
      exact ih

theorem traceFires_minute_eq (a : Alarm) (rs : List TimeReading)
    (hInt : a.intervalMin = 0) (hMin : a.minute ≠ ALARM_WILDCARD) :
    ∀ r ∈ traceFires a rs, r.minute = a.minute := by
  induction rs generalizing a with
  | nil => simp [traceFires]
  | cons r rs ih =>
    simp only [traceFires]
    by_cases hT : shouldTrigger a r = true
    · rw [if_pos hT]
      intro r' hr'
      rcases List.mem_cons.mp hr' with h1 | h2
      · subst h1
        exact shouldTrigger_minute_eq a r' hInt hMin hT
      · have hstep := stepAlarm_cache_of_trigger a r hT
        have := ih (stepAlarm a r).2
          (by rw [hstep]; exact hInt) (by rw [hstep]; exact hMin) r' h2
        rw [hstep] at this
        exact this
    · rw [Bool.not_eq_true] at hT
      rw [hT]
      simp only [Bool.false_eq_true, if_false]
      exact ih a hInt hMin

/-! ## C4 -/

/-- C4 counterexample: a fixed-hour alarm (hour 8, wildcard minute,
interval 0) fires at 08:00 and 08:01 of year day 0, and fires again at
08:00 on the SAME `(dayOfYear, minute) = (0, 0)` pair one year later (the
epoch is strictly increasing and every reading valid) — the intervening
08:01 fire overwrote `lastMinute`, so the dedup pair is not unique across
the whole `check()` sequence, contrary to the claim. -/
theorem fixed_alarm_refires_same_day_minute_pair :
    c4CexAlarm.intervalMin = 0 ∧ c4CexAlarm.hour ≠ ALARM_WILDCARD ∧
    c4CexReadings.Chain' (fun r1 r2 => r1.epoch ≤ r2.epoch) ∧
    c4CexReadings.all TimeReading.valid = true ∧
    traceFires c4CexAlarm c4CexReadings = c4CexReadings ∧
    ((traceFires c4CexAlarm c4CexReadings).map
        (fun r => (r.yday, r.minute))).count ((0 : Int), (0 : Nat)) = 2 := by
  refine ⟨by decide, by decide, ?_, by decide, by decide, by decide⟩
  simp only [c4CexReadings, List.chain'_cons, List.chain'_singleton,
    and_true]
  omega

/-- C4 (amended): for a fixed-time alarm (`intervalMin = 0`,
`hour ≠ WILDCARD`), along any sequence of `check()` calls two consecutive
fires never share the `(dayOfYear, minute)` pair — the alarm can fire
again on a previously used pair only after an intervening fire on a
different pair (which, within a single day with a fixed hour, cannot
happen for the same minute). -/
theorem fixed_alarm_consecutive_fires_differ (a : Alarm)
    (rs : List TimeReading) (hInt : a.intervalMin = 0)
    (hHour : a.hour ≠ ALARM_WILDCARD) :
    (traceFires a rs).Chain'
      (fun r1 r2 => ¬(r1.yday = r2.yday ∧ r1.minute = r2.minute)) := by
  induction rs generalizing a with
  | nil => simp [traceFires]
  | cons r rs ih =>
    simp only [traceFires]
    by_cases hT : shouldTrigger a r = true
    · rw [if_pos hT]
      rw [List.chain'_cons']
      have hstep := stepAlarm_cache_of_trigger a r hT
      constructor
      · intro y hy
        have h2 := traceFires_head_fixed (stepAlarm a r).2 rs
          (by rw [hstep]; exact hInt) (by rw [hstep]; exact hHour) y hy
        rw [hstep] at h2
        exact h2
      · exact ih (stepAlarm a r).2 (by rw [hstep]; exact hInt)
          (by rw [hstep]; exact hHour)
    · rw [Bool.not_eq_true] at hT
      rw [hT]
      simp only [Bool.false_eq_true, if_false]
      exact ih a hInt hHour

/-- Witness for C4's theorem at a concrete input. -/
theorem fixed_alarm_consecutive_fires_differ_inst :
    ({ Alarm.mkDefault with
        enabled := true, hour := 8, minute := 0 } : Alarm).intervalMin
      = 0 ∧
    ({ Alarm.mkDefault with
        enabled := true, hour := 8, minute := 0 } : Alarm).hour
      ≠ ALARM_WILDCARD ∧
    (traceFires { Alarm.mkDefault with
        enabled := true, hour := 8, minute := 0 }
      [⟨8, 0, 4, 10, 100⟩, ⟨8, 0, 4, 10, 130⟩]).Chain'
      (fun r1 r2 => ¬(r1.yday = r2.yday ∧ r1.minute = r2.minute)) :=
  ⟨by decide, by decide,
   fixed_alarm_consecutive_fires_differ _ _ (by decide) (by decide)⟩

/-! ## C5 -/

/-- C5 counterexample: an enabled wildcard-hour alarm with `minute = 0`
and `intervalMin = 0` fires at 00:00 and 01:00 of year day 0, and fires
again at 00:00 on the SAME `(dayOfYear, hour) = (0, 0)` one year later
(epochs non-decreasing, all readings valid) — more than one fire for that
`(dayOfYear, hour)` across the sequence, contrary to the claim. -/
theorem wildcardHour_alarm_refires_same_day_hour :
    c5CexAlarm.enabled = true ∧ c5CexAlarm.hour = ALARM_WILDCARD ∧
    c5CexAlarm.minute = 0 ∧ c5CexAlarm.intervalMin = 0 ∧
    c5CexReadings.Chain' (fun r1 r2 => r1.epoch ≤ r2.epoch) ∧
    c5CexReadings.all TimeReading.valid = true ∧
    traceFires c5CexAlarm c5CexReadings = c5CexReadings ∧
    ((traceFires c5CexAlarm c5CexReadings).map
        (fun r => (r.yday, r.hour))).count ((0 : Int), (0 : Nat)) = 2 := by
  refine ⟨by decide, by decide, by decide, by decide, ?_, by decide,
    by decide, by decide⟩
  simp only [c5CexReadings, List.chain'_cons, List.chain'_singleton,
    and_true]
  omega

/-- C5 (amended): for an alarm with `hour = WILDCARD`, `minute = 0` and
`intervalMin = 0`, along any sequence of `check()` calls two consecutive
fires never share the `(dayOfYear, hour)` pair — never twice within the
same hour of the same day without an intervening fire in a different
hour. -/
theorem wildcardHour_alarm_consecutive_fires_differ (a : Alarm)
    (rs : List TimeReading) (hInt : a.intervalMin = 0)
    (hHour : a.hour = ALARM_WILDCARD) (hMin : a.minute = 0) :
    (traceFires a rs).Chain'
      (fun r1 r2 => ¬(r1.yday = r2.yday ∧ r1.hour = r2.hour)) := by
  have hMinNe : a.minute ≠ ALARM_WILDCARD := by
    rw [hMin]; unfold ALARM_WILDCARD; omega
  clear hMin
  induction rs generalizing a with
  | nil => simp [traceFires]
  | cons r rs ih =>
    simp only [traceFires]
    by_cases hT : shouldTrigger a r = true
    · rw [if_pos hT]
      rw [List.chain'_cons']
      have hstep := stepAlarm_cache_of_trigger a r hT
      have hIn' : (stepAlarm a r).2.intervalMin = 0 := by
        rw [hstep]; exact hInt
      have hHo' : (stepAlarm a r).2.hour = ALARM_WILDCARD := by
        rw [hstep]; exact hHour
      have hMi' : (stepAlarm a r).2.minute ≠ ALARM_WILDCARD := by
        rw [hstep]; exact hMinNe
      constructor
      · intro y hy
        have h2 := traceFires_head_wildcard (stepAlarm a r).2 rs hIn' hHo'
          y hy
        rw [hstep] at h2
        have hyFire : y ∈ traceFires (stepAlarm a r).2 rs :=
          List.mem_of_mem_head? hy
        have hyMin : y.minute = a.minute := by
          have := traceFires_minute_eq (stepAlarm a r).2 rs hIn' hMi'
            y hyFire
          rw [hstep] at this
          exact this
        have hrMin : r.minute = a.minute :=
          shouldTrigger_minute_eq a r hInt hMinNe hT
        intro hdup
        exact h2 ⟨hdup.1, by rw [hyMin, hrMin], hdup.2⟩
      · exact ih (stepAlarm a r).2 hIn' hHo' hMi'
    · rw [Bool.not_eq_true] at hT
      rw [hT]
      simp only [Bool.false_eq_true, if_false]
      exact ih a hInt hHour hMinNe

/-- Witness for C5's theorem at a concrete input. -/
theorem wildcardHour_alarm_consecutive_fires_differ_inst :
    ({ Alarm.mkDefault with
        enabled := true, hour := ALARM_WILDCARD, minute := 0 }
      : Alarm).intervalMin = 0 ∧
    (traceFires { Alarm.mkDefault with
        enabled := true, hour := ALARM_WILDCARD, minute := 0 }
      [⟨0, 0, 4, 10, 0⟩, ⟨1, 0, 4, 10, 3600⟩]).Chain'
      (fun r1 r2 => ¬(r1.yday = r2.yday ∧ r1.hour = r2.hour)) :=
  ⟨by decide,
   wildcardHour_alarm_consecutive_fires_differ _ _ (by decide) (by decide)
     (by decide)⟩

/-! ## C9 helpers -/

theorem mem_append_single {l : List Alarm} {b a : Alarm}
    (h : a ∈ l ++ [b]) : a ∈ l ∨ a = b := by
  simpa using List.mem_append.mp h

theorem stepAlarm_slotCount (a : Alarm) (r : TimeReading) :
    (stepAlarm a r).2.actionSlotCount = a.actionSlotCount := by
  unfold stepAlarm
  split <;> rfl

theorem loadEntry_slotCount_le (p : Alarm) (e : PersistedAlarm) :
    (loadEntry p e).actionSlotCount ≤ p.actionSlotCount := by
  show (if p.action.isSome then 1 else 0) +
      (if (none : Option Nat).isSome then 1 else 0) +
      (if p.externalAction0.isSome then 1 else 0) ≤ _
  unfold Alarm.actionSlotCount
  simp only [Option.isSome_none, Bool.false_eq_true, if_false]
  omega

theorem modificar_alarms_cases (s : Scheduler) (idWeb : Int)
    (nm ds : String) (dm hr mi : Nat) (ts : String) (en : Bool)
    (cb : Option Nat) (pa : Nat) :
    (s.modificarPersonalizable idWeb nm ds dm hr mi ts en cb pa).2.alarms
      = s.alarms ∨
    ∃ i a, s.alarms.get? i = some a ∧
      (s.modificarPersonalizable idWeb nm ds dm hr mi ts en cb
          pa).2.alarms
        = s.alarms.set i (a.applyModify nm ds dm hr mi ts en cb pa) := by
  rcases hfind : s.alarms.findIdx?
      (fun a => a.isCustomizable && a.webId == idWeb) with _ | i
  · left
    simp only [Scheduler.modificarPersonalizable,
      Scheduler._findIndexByWebId, hfind]
    rw [if_pos le_rfl]
  · simp only [Scheduler.modificarPersonalizable,
      Scheduler._findIndexByWebId, hfind]
    by_cases hle : MAX_ALARMS ≤ i
    · left
      rw [if_pos hle]
    · rw [if_neg hle]
      rcases List.findIdx?_eq_some_iff_getElem.mp hfind with ⟨hi, hp, -⟩
      have hget : s.alarms.get? i = some (s.alarms[i]) := by
        rw [List.get?_eq_getElem?, List.getElem?_eq_getElem hi]
      rw [Bool.and_eq_true] at hp
      simp only [hget, hp.1, Bool.not_true, Bool.false_eq_true, if_false]
      rcases cb with _ | fn
      · left
        rw [if_pos rfl]
      · right
        rw [if_neg (Option.some_ne_none fn)]
        exact ⟨i, s.alarms[i], hget, rfl⟩

theorem eliminar_alarms_cases (s : Scheduler) (idWeb : Int) :
    (s.eliminarPersonalizable idWeb).2.alarms = s.alarms ∨
    ∃ i, (s.eliminarPersonalizable idWeb).2.alarms
      = s.alarms.eraseIdx i := by
  rcases hfind : s.alarms.findIdx?
      (fun a => a.isCustomizable && a.webId == idWeb) with _ | i
  · left
    simp only [Scheduler.eliminarPersonalizable,
      Scheduler._findIndexByWebId, hfind]
    rw [if_pos le_rfl]
  · simp only [Scheduler.eliminarPersonalizable,
      Scheduler._findIndexByWebId, hfind]
    by_cases hle : MAX_ALARMS ≤ i
    · left
      rw [if_pos hle]
    · rw [if_neg hle]
      rcases List.findIdx?_eq_some_iff_getElem.mp hfind with ⟨hi, hp, -⟩
      have hget : s.alarms.get? i = some (s.alarms[i]) := by
        rw [List.get?_eq_getElem?, List.getElem?_eq_getElem hi]
      rw [Bool.and_eq_true] at hp
      simp only [hget, hp.1, Bool.not_true, Bool.false_eq_true, if_false]
      exact Or.inr ⟨i, rfl⟩

theorem habilitar_alarms_cases (s : Scheduler) (idWeb : Int) (en : Bool) :
    (s.habilitarPersonalizable idWeb en).2.alarms = s.alarms ∨
    ∃ i a, s.alarms.get? i = some a ∧
      ((s.habilitarPersonalizable idWeb en).2.alarms
          = s.alarms.set i { a with
              enabled := en, lastYearDay := -1, lastMinute := 255,
              lastHour := 255, lastExecution := 0 } ∨
       (s.habilitarPersonalizable idWeb en).2.alarms
          = s.alarms.set i { a with enabled := en }) := by
  rcases hfind : s.alarms.findIdx?
      (fun a => a.isCustomizable && a.webId == idWeb) with _ | i
  · left
    simp only [Scheduler.habilitarPersonalizable,
      Scheduler._findIndexByWebId, hfind]
    rw [if_pos le_rfl]
  · simp only [Scheduler.habilitarPersonalizable,
      Scheduler._findIndexByWebId, hfind]
    by_cases hle : MAX_ALARMS ≤ i
    · left
      rw [if_pos hle]
    · rw [if_neg hle]
      rcases List.findIdx?_eq_some_iff_getElem.mp hfind with ⟨hi, hp, -⟩
      have hget : s.alarms.get? i = some (s.alarms[i]) := by
        rw [List.get?_eq_getElem?, List.getElem?_eq_getElem hi]
      rw [Bool.and_eq_true] at hp
      simp only [hget, hp.1, Bool.not_true, Bool.false_eq_true, if_false]
      cases en
      · refine Or.inr ⟨i, s.alarms[i], hget, Or.inr ?_⟩
        rw [if_neg (by simp : ¬(false = true))]
        rw [hp.1]
      · refine Or.inr ⟨i, s.alarms[i], hget, Or.inl ?_⟩
        rw [if_pos rfl]
        rw [hp.1]

theorem cargarLoop_atMostOne (doc : List PersistedAlarm) :
    ∀ (sl : Scheduler) (prevs : Nat → Alarm),
      (∀ a ∈ sl.alarms, a.actionSlotCount ≤ 1) →
      (∀ n, (prevs n).actionSlotCount ≤ 1) →
      ∀ a ∈ (cargarLoop sl prevs doc).alarms, a.actionSlotCount ≤ 1 := by
  induction doc with
  | nil => exact fun sl prevs hS _ => hS
  | cons e rest ih =>
    intro sl prevs hS hP a ha
    simp only [cargarLoop] at ha
    by_cases hfull : MAX_ALARMS ≤ sl.alarms.length
    · rw [if_pos hfull] at ha
      exact hS a ha
    · rw [if_neg hfull] at ha
      by_cases hval : entryValid e = true
      · simp only [hval, Bool.not_true, Bool.false_eq_true, if_false] at ha
        refine ih _ prevs ?_ hP a ha
        intro b hb
        rcases mem_append_single hb with h1 | h2
        · exact hS b h1
        · rcases h2
          exact le_trans (loadEntry_slotCount_le _ e)
            (hP sl.alarms.length)
      · rw [Bool.not_eq_true] at hval
        simp only [hval, Bool.not_false, if_true] at ha
        exact ih sl prevs hS hP a ha

/-! ## C9 -/

/-- C9 counterexample: loading a valid persisted entry into an empty
store leaves the (live, customizable) loaded alarm with NONE of its three
action-variant slots populated — zero populated slots, not exactly one,
so the claimed invariant is not preserved by the load operation. -/
theorem cargar_leaves_all_action_slots_empty :
    (((Scheduler.mk [] 1).cargarPersonalizablesDesdeJSON
        [⟨1, "N", "", 0, 8, 0, "BELL", 10, true⟩]
        (fun _ => Alarm.mkDefault)).alarms.map
      Alarm.actionSlotCount) = [0] ∧
    (((Scheduler.mk [] 1).cargarPersonalizablesDesdeJSON
        [⟨1, "N", "", 0, 8, 0, "BELL", 10, true⟩]
        (fun _ => Alarm.mkDefault)).alarms.map
      Alarm.isCustomizable) = [true] ∧
    (0 : Nat) ≠ 1 := by
  decide

/-- C9 (amended): every operation — the three system adds,
`addPersonalizable`, `modificarPersonalizable`, `eliminarPersonalizable`,
`habilitarPersonalizable`, `check` and `cargarPersonalizablesDesdeJSON` —
preserves the invariant that every live alarm has AT MOST one of its
three action-variant slots populated (alarms loaded from the document can
legitimately have zero populated slots, so "exactly one" does not hold). -/
theorem ops_preserve_atMostOne_action
    (s : Scheduler) (prev : Alarm) (prevs : Nat → Alarm) (r : TimeReading)
    (doc : List PersistedAlarm) (idWeb : Int) (dm hr mi im pa : Nat)
    (act ext ext0 cb : Option Nat) (en : Bool) (nm ds ts : String)
    (hS : ∀ a ∈ s.alarms, a.actionSlotCount ≤ 1)
    (hPrevs : ∀ n, (prevs n).actionSlotCount ≤ 1) :
    (∀ a ∈ (s.add prev dm hr mi im act pa en).2.alarms,
      a.actionSlotCount ≤ 1) ∧
    (∀ a ∈ (s.addExternal prev dm hr mi im ext pa en).2.alarms,
      a.actionSlotCount ≤ 1) ∧
    (∀ a ∈ (s.addExternal0 prev dm hr mi im ext0 en).2.alarms,
      a.actionSlotCount ≤ 1) ∧
    (∀ a ∈ (s.addPersonalizable prev nm ds dm hr mi ts pa cb en).2.alarms,
      a.actionSlotCount ≤ 1) ∧
    (∀ a ∈ (s.modificarPersonalizable idWeb nm ds dm hr mi ts en cb
        pa).2.alarms, a.actionSlotCount ≤ 1) ∧
    (∀ a ∈ (s.eliminarPersonalizable idWeb).2.alarms,
      a.actionSlotCount ≤ 1) ∧
    (∀ a ∈ (s.habilitarPersonalizable idWeb en).2.alarms,
      a.actionSlotCount ≤ 1) ∧
    (∀ a ∈ (s.check r).2.alarms, a.actionSlotCount ≤ 1) ∧
    (∀ a ∈ (s.cargarPersonalizablesDesdeJSON doc prevs).alarms,
      a.actionSlotCount ≤ 1) := by
  refine ⟨?_, ?_, ?_, ?_, ?_, ?_, ?_, ?_, ?_⟩
  · unfold Scheduler.add
    by_cases hf : MAX_ALARMS ≤ s.alarms.length
    · rw [if_pos hf]
      exact hS
    · rw [if_neg hf]
      intro a ha
      rcases mem_append_single ha with h1 | h2
      · exact hS a h1
      · rcases h2
        cases act <;> simp [Alarm.actionSlotCount]
  · unfold Scheduler.addExternal
    by_cases hf : MAX_ALARMS ≤ s.alarms.length
    · rw [if_pos hf]
      exact hS
    · rw [if_neg hf]
      intro a ha
      rcases mem_append_single ha with h1 | h2
      · exact hS a h1
      · rcases h2
        cases ext <;> simp [Alarm.actionSlotCount]
  · unfold Scheduler.addExternal0
    by_cases hf : MAX_ALARMS ≤ s.alarms.length
    · rw [if_pos hf]
      exact hS
    · rw [if_neg hf]
      intro a ha
      rcases mem_append_single ha with h1 | h2
      · exact hS a h1
      · rcases h2
        cases ext0 <;> simp [Alarm.actionSlotCount]
  · unfold Scheduler.addPersonalizable
    by_cases hf : MAX_ALARMS ≤ s.alarms.length
    · rw [if_pos hf]
      exact hS
    · rw [if_neg hf]
      intro a ha
      rcases mem_append_single ha with h1 | h2
      · exact hS a h1
      · rcases h2
        cases cb <;> simp [Alarm.actionSlotCount]
  · rcases modificar_alarms_cases s idWeb nm ds dm hr mi ts en cb pa
      with hc | ⟨i, a0, -, hc⟩
    · rw [hc]
      exact hS
    · rw [hc]
      intro a ha
      rcases List.mem_or_eq_of_mem_set ha with h1 | h2
      · exact hS a h1
      · rcases h2
        cases cb <;> simp [Alarm.applyModify, Alarm.actionSlotCount]
  · rcases eliminar_alarms_cases s idWeb with hc | ⟨i, hc⟩
    · rw [hc]
      exact hS
    · rw [hc]
      intro a ha
      exact hS a (List.mem_of_mem_eraseIdx ha)
  · rcases habilitar_alarms_cases s idWeb en with hc | ⟨i, a0, hg, hc | hc⟩
    · rw [hc]
      exact hS
    · rw [hc]
      intro a ha
      rcases List.mem_or_eq_of_mem_set ha with h1 | h2
      · exact hS a h1
      · rcases h2
        exact hS a0 (List.get?_mem hg)
    · rw [hc]
      intro a ha
      rcases List.mem_or_eq_of_mem_set ha with h1 | h2
      · exact hS a h1
      · rcases h2
        exact hS a0 (List.get?_mem hg)
  · unfold Scheduler.check
    intro a ha
    simp only [List.map_map] at ha
    rcases List.mem_map.mp ha with ⟨a0, ha0, rfl⟩
    rw [Function.comp_apply, stepAlarm_slotCount]
    exact hS a0 ha0
  · unfold Scheduler.cargarPersonalizablesDesdeJSON
    exact cargarLoop_atMostOne doc _ prevs
      (fun a ha => hS a (List.mem_filter.mp ha).1) hPrevs

/-- Witness for C9's theorem at a concrete input. -/
theorem ops_preserve_atMostOne_action_inst :
    (∀ a ∈ (Scheduler.mk [] 1).alarms, a.actionSlotCount ≤ 1) ∧
    (∀ a ∈ ((Scheduler.mk [] 1).add Alarm.mkDefault 127 8 0 0 (some 1) 0
        true).2.alarms, a.actionSlotCount ≤ 1) :=
  ⟨by simp,
   (ops_preserve_atMostOne_action (Scheduler.mk [] 1) Alarm.mkDefault
     (fun _ => Alarm.mkDefault) ⟨8, 0, 4, 0, 0⟩ [] 1 127 8 0 0 0 (some 1)
     none none none true "A" "d" "T" (by simp)
     (fun _ => by show Alarm.mkDefault.actionSlotCount ≤ 1; decide)).1⟩

/-! ## C3 helpers -/

theorem strFit_of_le (s : String) (n : Nat) (h : s.length ≤ n) :
    strFit s n = s := by
  cases s with
  | mk data => exact congrArg String.mk (List.take_of_length_le h)

theorem length_pos_of_ne_empty (s : String) (h : s ≠ "") :
    s.length ≠ 0 := by
  intro h0
  apply h
  cases s with
  | mk d => rw [List.length_eq_zero.mp h0]

theorem serialize_entryValid (a : Alarm) (hname : a.name ≠ "")
    (hh : a.hour ≤ 23) (hm : a.minute ≤ 59) (hw : 1 ≤ a.webId) :
    entryValid (serializeAlarm a) = true := by
  unfold entryValid serializeAlarm
  rw [Bool.not_eq_true']
  simp only [Bool.or_eq_false_iff]
  refine ⟨⟨⟨?_, ?_⟩, ?_⟩, ?_⟩
  · exact beq_eq_false_iff_ne.mpr (length_pos_of_ne_empty _ hname)
  · exact decide_eq_false (Nat.not_lt.mpr hh)
  · exact decide_eq_false (Nat.not_lt.mpr hm)
  · exact decide_eq_false (by omega)

theorem maskOfDay_dayOfMask (mask : Nat)
    (h : maskRoundTrips mask = true) :
    maskOfDay (dayOfMask mask) = mask := by
  unfold maskRoundTrips at h
  rw [Bool.or_eq_true] at h
  rcases h with h | h
  · rw [beq_iff_eq] at h
    rw [h]
    decide
  · rw [List.any_eq_true] at h
    rcases h with ⟨d, hd, hbeq⟩
    rw [List.mem_range] at hd
    rw [beq_iff_eq] at hbeq
    rw [hbeq]
    have aux : ∀ d : Nat, d < 7 →
        maskOfDay (dayOfMask (1 <<< d)) = 1 <<< d := by decide
    exact aux d hd

theorem loadEntry_serialize_tuple (p a : Alarm)
    (h : a.persistRoundTripSafe) :
    (loadEntry p (serializeAlarm a)).persistTuple = a.persistTuple ∧
    (loadEntry p (serializeAlarm a)).isCustomizable = true := by
  obtain ⟨-, hname, h49, h99, h19, -, -, -, hmask⟩ := h
  constructor
  · show (strFit a.name 49, strFit a.description 99,
        maskOfDay (dayOfMask a.dayMask), a.hour, a.minute,
        strFit a.typeString 19, a.parameter, a.enabled) = _
    rw [strFit_of_le _ _ h49, strFit_of_le _ _ h99, strFit_of_le _ _ h19,
      maskOfDay_dayOfMask _ hmask]
    rfl
  · rfl

theorem length_filter_partition {α : Type} (p : α → Bool) (l : List α) :
    (l.filter (fun a => !p a)).length + (l.filter p).length
      = l.length := by
  induction l with
  | nil => rfl
  | cons x l ih =>
    cases hx : p x
    · simp [List.filter_cons, hx]
      omega
    · simp [List.filter_cons, hx]
      omega

theorem cargarLoop_roundtrip (cs : List Alarm) :
    ∀ (sl : Scheduler) (prevs : Nat → Alarm),
      sl.alarms.length + cs.length ≤ MAX_ALARMS →
      (∀ a ∈ cs, a.persistRoundTripSafe) →
      ((cargarLoop sl prevs (cs.map serializeAlarm)).alarms.filter
          (fun a => a.isCustomizable)).map Alarm.persistTuple
        = ((sl.alarms.filter (fun a => a.isCustomizable)).map
            Alarm.persistTuple) ++ cs.map Alarm.persistTuple := by
  induction cs with
  | nil =>
    intro sl prevs _ _
    simp [cargarLoop]
  | cons a cs ih =>
    intro sl prevs hlen hgood
    have hsafe := hgood a (List.mem_cons_self a cs)
    obtain ⟨hcust, hname, h49, h99, h19, hh, hm, hw, hmask⟩ := hsafe
    simp only [List.map_cons, cargarLoop]
    have hnf : ¬ (MAX_ALARMS ≤ sl.alarms.length) := by
      simp only [List.length_cons] at hlen
      omega
    rw [if_neg hnf]
    have hval : entryValid (serializeAlarm a) = true :=
      serialize_entryValid a hname hh hm hw
    simp only [hval, Bool.not_true, Bool.false_eq_true, if_false]
    have hload := loadEntry_serialize_tuple (prevs sl.alarms.length) a
      ⟨hcust, hname, h49, h99, h19, hh, hm, hw, hmask⟩
    have hlen' : (sl.alarms ++
        [loadEntry (prevs sl.alarms.length) (serializeAlarm a)]).length
          + cs.length ≤ MAX_ALARMS := by
      rw [List.length_append]
      simp only [List.length_cons, List.length_nil] at *
      omega
    rw [ih _ prevs hlen'
      (fun b hb => hgood b (List.mem_cons_of_mem a hb))]
    show ((sl.alarms ++ [_]).filter _).map _ ++ _ = _
    rw [List.filter_append, List.map_append]
    have hsingle : List.filter (fun a => a.isCustomizable)
        [loadEntry (prevs sl.alarms.length) (serializeAlarm a)]
          = [loadEntry (prevs sl.alarms.length) (serializeAlarm a)] := by
      rw [List.filter_cons_of_pos hload.2]
      rfl
    rw [hsingle]
    simp only [List.map_cons, List.map_nil, List.append_assoc,
      List.singleton_append, hload.1]

/-! ## C3 -/

/-- C3 counterexample: a store holding one live customizable alarm whose
hour is the wildcard sentinel 255: serialization emits it, but the
loader's `hour > 23` validation drops it, so the round trip produces zero
customizable alarms instead of one — the `{name, …, enabled}` tuples are
not reproduced. -/
theorem roundtrip_drops_wildcard_hour_alarm :
    ((c3CexScheduler.alarms.filter (fun a => a.isCustomizable)).map
      Alarm.persistTuple).length = 1 ∧
    c3CexScheduler.guardarPersonalizablesEnJSON.length = 1 ∧
    ((c3CexScheduler.cargarPersonalizablesDesdeJSON
        c3CexScheduler.guardarPersonalizablesEnJSON
        (fun _ => Alarm.mkDefault)).alarms.filter
      (fun a => a.isCustomizable)) = [] := by
  decide

/-- C3 (amended): serialize-then-deserialize reproduces the customizable
alarms' `{name, description, day mask, hour, minute, type tag, parameter,
enabled}` tuples exactly (even in order) PROVIDED every customizable
alarm passes the loader's validation and encoding: non-empty name,
strings within their buffer sizes, `hour ≤ 23`, `minute ≤ 59`,
`webId ≥ 1`, and a day mask that is all-days or a single weekday bit.
Alarms outside these ranges (e.g. wildcard hour) are silently dropped by
the loader. -/
theorem roundtrip_preserves_customizable_tuples (s : Scheduler)
    (prevs : Nat → Alarm) (hlen : s.alarms.length ≤ MAX_ALARMS)
    (hA : ∀ a ∈ s.alarms, a.isCustomizable = true →
      a.persistRoundTripSafe) :
    ((s.cargarPersonalizablesDesdeJSON s.guardarPersonalizablesEnJSON
        prevs).alarms.filter (fun a => a.isCustomizable)).map
      Alarm.persistTuple
    = (s.alarms.filter (fun a => a.isCustomizable)).map
        Alarm.persistTuple := by
  unfold Scheduler.cargarPersonalizablesDesdeJSON
    Scheduler.guardarPersonalizablesEnJSON
  have hpart := length_filter_partition
    (fun a : Alarm => a.isCustomizable) s.alarms
  have hcs : ∀ a ∈ s.alarms.filter (fun a => a.isCustomizable),
      a.persistRoundTripSafe := by
    intro a ha
    have hm := List.mem_filter.mp ha
    exact hA a hm.1 hm.2
  rw [cargarLoop_roundtrip _ _ prevs
    (by
      show (s.alarms.filter (fun a => !a.isCustomizable)).length +
        (s.alarms.filter (fun a => a.isCustomizable)).length ≤ MAX_ALARMS
      omega) hcs]
  have hbase : (s.alarms.filter (fun a => !a.isCustomizable)).filter
      (fun a => a.isCustomizable) = [] := by
    rw [List.filter_eq_nil_iff]
    intro a ha
    have hm := List.mem_filter.mp ha
    simp only [Bool.not_eq_true'] at hm
    simp [hm.2]
  show ((s.alarms.filter _).filter _).map _ ++ _ = _
  rw [hbase]
  rfl

/-- Witness for C3's theorem at a concrete input. -/
theorem roundtrip_preserves_customizable_tuples_inst :
    (Scheduler.mk [{ Alarm.mkDefault with
        enabled := true, hour := 8, minute := 30,
        isCustomizable := true, webId := 1, name := "Bell" }]
      2).alarms.length ≤ MAX_ALARMS ∧
    (((Scheduler.mk [{ Alarm.mkDefault with
          enabled := true, hour := 8, minute := 30,
          isCustomizable := true, webId := 1, name := "Bell" }]
        2).cargarPersonalizablesDesdeJSON
        (Scheduler.mk [{ Alarm.mkDefault with
            enabled := true, hour := 8, minute := 30,
            isCustomizable := true, webId := 1, name := "Bell" }]
          2).guardarPersonalizablesEnJSON
        (fun _ => Alarm.mkDefault)).alarms.filter
        (fun a => a.isCustomizable)).map Alarm.persistTuple
      = ((Scheduler.mk [{ Alarm.mkDefault with
            enabled := true, hour := 8, minute := 30,
            isCustomizable := true, webId := 1, name := "Bell" }]
          2).alarms.filter (fun a => a.isCustomizable)).map
          Alarm.persistTuple :=
  ⟨by decide,
   roundtrip_preserves_customizable_tuples _ (fun _ => Alarm.mkDefault)
     (by decide) (by decide)⟩

end AlarmSched
